/-
Verification of the Metrics & Insights Engine of the ai-content-pipeline
repository (src/src/performance_analyzer.py), shallowly embedded in Lean 4.

Modelling conventions:
* Python raw counts are `Nat`; Python floats are modelled as `ℚ` so that
  arithmetic is exact.  `round(x, 2)` is modelled as round-to-nearest on
  hundredths (`round2`); no claim below depends on tie-breaking behaviour.
* Python dict inputs with `.get(key, 0)` defaults are modelled as structures
  whose fields carry the already-defaulted values.
* Returned dicts become structures; string-keyed result maps become
  association lists in insertion order.
-/
import Mathlib

namespace PerformanceAnalyzer

/-! ### calculate_metrics / _calculate_engagement_score
    (src/src/performance_analyzer.py lines 81-134) -/

/-- `round(x, 2)`: round to two decimal places. -/
def round2 (q : ℚ) : ℚ := (round (q * 100) : ℤ) / 100

/-- Raw campaign data with counts (keys of the `raw_data` dict, each
defaulting to 0 when absent). -/
structure RawData where
  sent : ℕ
  opens : ℕ
  clicks : ℕ
  bounces : ℕ
  unsubscribes : ℕ

/-- The dict returned by `calculate_metrics`. -/
structure Metrics where
  contacts_sent : ℕ
  opens : ℕ
  clicks : ℕ
  bounces : ℕ
  unsubscribes : ℕ
  open_rate : ℚ
  click_rate : ℚ
  click_to_open_rate : ℚ
  bounce_rate : ℚ
  unsubscribe_rate : ℚ
  engagement_score : ℚ
deriving DecidableEq

/-- `_calculate_engagement_score(opens, clicks, unsubscribes, sent)`. -/
def calculate_engagement_score (opens clicks unsubscribes sent : ℕ) : ℚ :=
  if sent = 0 then 0
  else
    let open_score := ((opens : ℚ) / sent) * 30
    let click_score := ((clicks : ℚ) / sent) * 50
    let unsub_penalty := ((unsubscribes : ℚ) / sent) * 20
    round2 (max 0 (min 100 ((open_score + click_score - unsub_penalty) * 100)))

/-- `calculate_metrics(raw_data)`. -/
def calculate_metrics (d : RawData) : Metrics where
  contacts_sent := d.sent
  opens := d.opens
  clicks := d.clicks
  bounces := d.bounces
  unsubscribes := d.unsubscribes
  open_rate := if d.sent > 0 then (d.opens : ℚ) / d.sent else 0
  click_rate := if d.sent > 0 then (d.clicks : ℚ) / d.sent else 0
  click_to_open_rate := if d.opens > 0 then (d.clicks : ℚ) / d.opens else 0
  bounce_rate := if d.sent > 0 then (d.bounces : ℚ) / d.sent else 0
  unsubscribe_rate := if d.sent > 0 then (d.unsubscribes : ℚ) / d.sent else 0
  engagement_score := calculate_engagement_score d.opens d.clicks d.unsubscribes d.sent

/-! ### compare_to_benchmarks (lines 212-255) -/

/-- The metric fields that `compare_to_benchmarks` reads from its `metrics`
dict (each via `.get(metric, 0)`). -/
structure BenchMetrics where
  open_rate : ℚ
  click_rate : ℚ
  unsubscribe_rate : ℚ

/-- One entry of the `performance` map built by `compare_to_benchmarks`. -/
structure ComparisonEntry where
  actual : ℚ
  benchmark : ℚ
  difference : ℚ
  difference_percent : ℚ
  status : String
deriving DecidableEq

/-- The loop body of `compare_to_benchmarks` for one metric. -/
def compareMetric (actual benchmark : ℚ) : ComparisonEntry :=
  let diff := actual - benchmark
  let diff_percent := if benchmark > 0 then diff / benchmark * 100 else 0
  { actual := actual
    benchmark := benchmark
    difference := diff
    difference_percent := diff_percent
    status := if diff > 0 then "above" else if diff < 0 then "below" else "at" }

/-- The industry benchmark constants. -/
def benchmarks : List (String × ℚ) :=
  [("open_rate", 0.21), ("click_rate", 0.10), ("unsubscribe_rate", 0.005)]

/-- The value `metrics.get(metric, 0)` for each benchmarked key. -/
def benchActual (m : BenchMetrics) : String → ℚ
  | "open_rate" => m.open_rate
  | "click_rate" => m.click_rate
  | "unsubscribe_rate" => m.unsubscribe_rate
  | _ => 0

/-- The `performance` map of `compare_to_benchmarks(metrics)`, in insertion
order (the input echo and the constant table are omitted from the model). -/
def compare_to_benchmarks (m : BenchMetrics) : List (String × ComparisonEntry) :=
  benchmarks.map (fun p => (p.1, compareMetric (benchActual m p.1) p.2))

/-! ### suggest_optimization (lines 316-377) -/

/-- The metric fields that `suggest_optimization` reads (each via `.get`,
defaulting to 0). -/
structure SuggestMetrics where
  open_rate : ℚ
  click_rate : ℚ
  click_to_open_rate : ℚ

def subjectLineMsg : String :=
  "Subject Line: Open rate is below 20%. Try A/B testing subject lines with personalization, numbers, or urgency to improve opens."

def ctaMsg : String :=
  "Call-to-Action: Click rate is low. Strengthen your CTAs with action verbs, create urgency, and ensure links are prominent and compelling."

def designMsg : String :=
  "Email Design: Click-to-open rate is under 30%. Improve email layout, use more visuals, and make CTAs more prominent."

def sendTimeMsg : String :=
  "⏰ Send Time: Good opens but low clicks suggests timing issues. Test different send times (Tuesday-Thursday, 10am or 2pm often perform well)."

def segmentationMsg : String :=
  "👥 Segmentation: Consider further segmenting your audience based on engagement history and interests for more personalized content."

def strongPerformanceMsg : String :=
  "✨ Strong Performance! Consider using this as a template for future campaigns. Document what worked well (timing, subject line, content angle)."

def normalRangesMsg : String :=
  "Performance is within normal ranges. Continue monitoring and testing variations."

/-- `suggest_optimization(metrics, content_context)`; `content_context` is
never read by the function body, so it is dropped from the model. -/
def suggest_optimization (m : SuggestMetrics) : List String :=
  let suggestions :=
    (if m.open_rate < 0.20 then [subjectLineMsg] else []) ++
    (if m.click_rate < 0.08 then [ctaMsg] else []) ++
    (if m.click_to_open_rate < 0.30 then [designMsg] else []) ++
    (if m.open_rate > 0.25 ∧ m.click_rate < 0.10 then [sendTimeMsg] else []) ++
    (if m.open_rate < 0.22 then [segmentationMsg] else []) ++
    (if m.open_rate > 0.30 ∧ m.click_rate > 0.12 then [strongPerformanceMsg] else [])
  if suggestions = [] then [normalRangesMsg] else suggestions

/-- The rule table of `suggest_optimization` as the spec describes it: six
independent `(predicate, message)` pairs in declaration order. -/
def specRuleTable (m : SuggestMetrics) : List (Bool × String) :=
  [(decide (m.open_rate < 0.20), subjectLineMsg),
   (decide (m.click_rate < 0.08), ctaMsg),
   (decide (m.click_to_open_rate < 0.30), designMsg),
   (decide (m.open_rate > 0.25 ∧ m.click_rate < 0.10), sendTimeMsg),
   (decide (m.open_rate < 0.22), segmentationMsg),
   (decide (m.open_rate > 0.30 ∧ m.click_rate > 0.12), strongPerformanceMsg)]

/-- The messages of the matching rules, in rule-declaration order. -/
def matchingMessages (m : SuggestMetrics) : List String :=
  ((specRuleTable m).filter (fun r => r.1)).map (fun r => r.2)

/-! ### identify_trends (lines 257-314) -/

/-- The fields of one historical record that `identify_trends` reads
(`persona` defaults to "unknown", rates to 0 via `.get`). -/
structure Record where
  persona : String
  open_rate : ℚ
  click_rate : ℚ

/-- One per-persona trend entry. -/
structure TrendEntry where
  campaigns_analyzed : ℕ
  avg_open_rate : ℚ
  avg_click_rate : ℚ
  open_rate_trend : String
  click_rate_trend : String
  open_rate_change : ℚ
  click_rate_change : ℚ
deriving DecidableEq

/-- The `identify_trends` result: either the insufficient-data sentinel or a
success payload with the per-persona trends map (insertion-ordered). -/
inductive TrendResult where
  | insufficient_data (message : String)
  | success (personas_analyzed : ℕ) (trends : List (String × TrendEntry))
deriving DecidableEq

def sumOpen (rs : List Record) : ℚ := (rs.map (fun r => r.open_rate)).sum

def sumClick (rs : List Record) : ℚ := (rs.map (fun r => r.click_rate)).sum

/-- The per-persona trend dict built in the loop body of `identify_trends`
(only reached when the group has at least 2 records). -/
def mkTrend (records : List Record) : TrendEntry :=
  let n := records.length
  let avg_open := sumOpen records / n
  let avg_click := sumClick records / n
  let mid := n / 2
  let first_half_open := sumOpen (records.take mid) / mid
  let second_half_open := sumOpen (records.drop mid) / (n - mid)
  let first_half_click := sumClick (records.take mid) / mid
  let second_half_click := sumClick (records.drop mid) / (n - mid)
  { campaigns_analyzed := n
    avg_open_rate := avg_open
    avg_click_rate := avg_click
    open_rate_trend := if second_half_open > first_half_open then "improving" else "declining"
    click_rate_trend := if second_half_click > first_half_click then "improving" else "declining"
    open_rate_change := second_half_open - first_half_open
    click_rate_change := second_half_click - first_half_click }

/-- The distinct personas of the history in first-occurrence order: the
iteration order of the Python `by_persona` dict. -/
def personaKeys : List String → List String
  | [] => []
  | a :: l => a :: personaKeys (l.filter (fun b => b ≠ a))
termination_by l => l.length
decreasing_by
  simp only [List.length_cons]
  exact Nat.lt_succ_of_le (List.length_filter_le _ _)

/-- The `trends` dict built by the grouping loop of `identify_trends`:
grouping by persona preserves input order within each group, so a persona's
group is the persona-filtered history; groups with fewer than 2 records are
skipped (`continue`). -/
def trendsOf (historical_data : List Record) : List (String × TrendEntry) :=
  (personaKeys (historical_data.map (fun r => r.persona))).filterMap
    (fun p =>
      let records := historical_data.filter (fun r => r.persona = p)
      if records.length < 2 then none else some (p, mkTrend records))

/-- `identify_trends(historical_data)`. -/
def identify_trends (historical_data : List Record) : TrendResult :=
  if historical_data.length < 2 then
    .insufficient_data "Need at least 2 campaigns for trend analysis"
  else
    .success (trendsOf historical_data).length (trendsOf historical_data)

/-! ### Helper lemmas -/

theorem round2_mono {x y : ℚ} (h : x ≤ y) : round2 x ≤ round2 y := by
  unfold round2
  have : round (x * 100) ≤ round (y * 100) := by
    rw [round_eq, round_eq]
    exact Int.floor_le_floor (by linarith)
  have hc : ((round (x * 100) : ℤ) : ℚ) ≤ ((round (y * 100) : ℤ) : ℚ) := by
    exact_mod_cast this
  linarith

theorem round2_zero : round2 0 = 0 := by
  unfold round2
  norm_num

theorem round2_hundred : round2 100 = 100 := by
  unfold round2
  norm_num

/-! ### Theorems for the claims -/

/-- C1: for every raw-count input, the engagement_score returned by
calculate_metrics is 0 when sent = 0, and otherwise equals
round(max(0, min(100, ((opens/sent)*30 + (clicks/sent)*50
- (unsubscribes/sent)*20) * 100)), 2): the weighted component sum is
multiplied by a further 100 before clamping to [0,100] and rounding to two
decimal places. -/
theorem engagement_score_formula (d : RawData) :
    (calculate_metrics d).engagement_score =
      if d.sent = 0 then 0
      else round2 (max 0 (min 100
        ((((d.opens : ℚ) / d.sent) * 30 + ((d.clicks : ℚ) / d.sent) * 50
          - ((d.unsubscribes : ℚ) / d.sent) * 20) * 100))) := rfl

/-- C2: for all non-negative counts, including pathological ones, the
engagement_score produced by calculate_metrics lies within [0, 100]
inclusive: the clamp bound survives the rounding step. -/
theorem engagement_score_in_range (opens clicks unsubscribes sent bounces : ℕ) :
    0 ≤ (calculate_metrics ⟨sent, opens, clicks, bounces, unsubscribes⟩).engagement_score ∧
    (calculate_metrics ⟨sent, opens, clicks, bounces, unsubscribes⟩).engagement_score ≤ 100 := by
  show 0 ≤ calculate_engagement_score opens clicks unsubscribes sent ∧
    calculate_engagement_score opens clicks unsubscribes sent ≤ 100
  unfold calculate_engagement_score
  split
  · norm_num
  · set x := (((opens : ℚ) / sent) * 30 + ((clicks : ℚ) / sent) * 50
      - ((unsubscribes : ℚ) / sent) * 20) * 100 with hx
    constructor
    · calc (0 : ℚ) = round2 0 := round2_zero.symm
        _ ≤ round2 (max 0 (min 100 x)) := round2_mono (le_max_left 0 _)
    · calc round2 (max 0 (min 100 x)) ≤ round2 100 :=
          round2_mono (max_le (by norm_num) (min_le_left 100 x))
        _ = 100 := round2_hundred

/-- C7: every division in calculate_metrics is guarded: when sent = 0, the
open, click, bounce and unsubscribe rates and the engagement score are all
0, and click_to_open_rate is 0 whenever opens = 0, regardless of clicks. -/
theorem calculate_metrics_division_guards (d : RawData) :
    (d.sent = 0 →
      (calculate_metrics d).open_rate = 0 ∧
      (calculate_metrics d).click_rate = 0 ∧
      (calculate_metrics d).bounce_rate = 0 ∧
      (calculate_metrics d).unsubscribe_rate = 0 ∧
      (calculate_metrics d).engagement_score = 0) ∧
    (d.opens = 0 → (calculate_metrics d).click_to_open_rate = 0) := by
  constructor <;> intro h <;>
    simp [calculate_metrics, calculate_engagement_score, h]

/-- Witness for C7 at sent = 0 (with nonzero counts elsewhere) and at
opens = 0 with clicks = 7. -/
theorem calculate_metrics_division_guards_witness :
    ((calculate_metrics ⟨0, 3, 5, 1, 2⟩).open_rate = 0 ∧
     (calculate_metrics ⟨0, 3, 5, 1, 2⟩).click_rate = 0 ∧
     (calculate_metrics ⟨0, 3, 5, 1, 2⟩).bounce_rate = 0 ∧
     (calculate_metrics ⟨0, 3, 5, 1, 2⟩).unsubscribe_rate = 0 ∧
     (calculate_metrics ⟨0, 3, 5, 1, 2⟩).engagement_score = 0) ∧
    (calculate_metrics ⟨50, 0, 7, 1, 2⟩).click_to_open_rate = 0 :=
  ⟨(calculate_metrics_division_guards ⟨0, 3, 5, 1, 2⟩).1 rfl,
   (calculate_metrics_division_guards ⟨50, 0, 7, 1, 2⟩).2 rfl⟩

/-- C8: identify_trends on a history with fewer than 2 records returns the
insufficient_data sentinel with its message and no trends map. -/
theorem identify_trends_insufficient (h : List Record) (hlen : h.length < 2) :
    identify_trends h =
      .insufficient_data "Need at least 2 campaigns for trend analysis" := by
  simp [identify_trends, hlen]

/-- Witness for C8 on a one-record history. -/
theorem identify_trends_insufficient_witness :
    identify_trends [⟨"founders", 1/4, 1/10⟩] =
      .insufficient_data "Need at least 2 campaigns for trend analysis" :=
  identify_trends_insufficient [⟨"founders", 1/4, 1/10⟩] (by decide)

theorem filter_table_cons (c : Prop) [Decidable c] (msg : String)
    (rest : List (Bool × String)) :
    (((decide c, msg) :: rest).filter (fun r => r.1)).map (fun r => r.2) =
      (if c then [msg] else []) ++ ((rest.filter (fun r => r.1)).map (fun r => r.2)) := by
  by_cases h : c <;> simp [h]

theorem matchingMessages_unfold (m : SuggestMetrics) :
    matchingMessages m =
      (if m.open_rate < 0.20 then [subjectLineMsg] else []) ++
      (if m.click_rate < 0.08 then [ctaMsg] else []) ++
      (if m.click_to_open_rate < 0.30 then [designMsg] else []) ++
      (if m.open_rate > 0.25 ∧ m.click_rate < 0.10 then [sendTimeMsg] else []) ++
      (if m.open_rate < 0.22 then [segmentationMsg] else []) ++
      (if m.open_rate > 0.30 ∧ m.click_rate > 0.12 then [strongPerformanceMsg] else []) := by
  unfold matchingMessages specRuleTable
  rw [filter_table_cons, filter_table_cons, filter_table_cons, filter_table_cons,
    filter_table_cons, filter_table_cons]
  simp [List.append_assoc]

theorem suggest_optimization_eq (m : SuggestMetrics) :
    suggest_optimization m =
      if matchingMessages m = [] then [normalRangesMsg] else matchingMessages m := by
  rw [matchingMessages_unfold]
  rfl

/-- C4: suggest_optimization evaluates its six threshold rules independently
and in declaration order: the output is exactly the messages of the matching
rules of the rule table, in table order, and the single default message when
zero rules match. -/
theorem suggest_optimization_rule_table (m : SuggestMetrics) :
    suggest_optimization m =
      if matchingMessages m = [] then [normalRangesMsg] else matchingMessages m :=
  suggest_optimization_eq m

/-- C5 counterexample: with open_rate = 0.35, click_rate = 0.15 and no other
metric fields supplied (so click_to_open_rate defaults to 0),
suggest_optimization does NOT return only the rule-6 "strong performance"
suggestion. -/
theorem rule6_only_counterexample :
    suggest_optimization ⟨0.35, 0.15, 0⟩ ≠ [strongPerformanceMsg] := by
  unfold suggest_optimization
  norm_num
  decide

/-- C5 amended: with open_rate = 0.35, click_rate = 0.15 and no other metric
fields supplied, rules 3 (click_to_open_rate 0 < 0.30) and 6 both fire:
suggest_optimization returns exactly the design suggestion followed by the
"strong performance, use as template" suggestion. -/
theorem rule3_and_rule6_fire :
    suggest_optimization ⟨0.35, 0.15, 0⟩ = [designMsg, strongPerformanceMsg] := by
  unfold suggest_optimization
  norm_num
  decide

theorem ite_singleton_eq_nil (c : Prop) [Decidable c] (x : String) :
    ((if c then [x] else []) = []) ↔ ¬c := by
  split_ifs with h <;> simp [h]

theorem not_mem_ite_singleton (c : Prop) [Decidable c] {x y : String} (hxy : x ≠ y) :
    x ∉ (if c then [y] else []) := by
  split_ifs <;> simp [hxy]

theorem matchingMessages_eq_nil_iff (m : SuggestMetrics) :
    matchingMessages m = [] ↔
      ¬(m.open_rate < 0.20 ∨ m.click_rate < 0.08 ∨ m.click_to_open_rate < 0.30 ∨
        (m.open_rate > 0.25 ∧ m.click_rate < 0.10) ∨ m.open_rate < 0.22 ∨
        (m.open_rate > 0.30 ∧ m.click_rate > 0.12)) := by
  rw [matchingMessages_unfold]
  simp only [List.append_eq_nil, ite_singleton_eq_nil, not_or]
  tauto

theorem normalRanges_not_mem_matching (m : SuggestMetrics) :
    normalRangesMsg ∉ matchingMessages m := by
  rw [matchingMessages_unfold]
  simp only [List.mem_append, not_or]
  exact ⟨⟨⟨⟨⟨not_mem_ite_singleton _ (by decide), not_mem_ite_singleton _ (by decide)⟩,
    not_mem_ite_singleton _ (by decide)⟩, not_mem_ite_singleton _ (by decide)⟩,
    not_mem_ite_singleton _ (by decide)⟩, not_mem_ite_singleton _ (by decide)⟩

theorem matchingMessages_length_le (m : SuggestMetrics) :
    (matchingMessages m).length ≤ 6 := by
  unfold matchingMessages
  rw [List.length_map]
  exact le_trans (List.length_filter_le _ _) (by simp [specRuleTable])

/-- C10: suggest_optimization always returns a non-empty list of at most six
strings, and the default "within normal ranges" message is in the output iff
none of the six threshold predicates holds, in which case it is the entire
output (never mixed with rule messages). -/
theorem suggest_optimization_invariants (m : SuggestMetrics) :
    suggest_optimization m ≠ [] ∧
    (suggest_optimization m).length ≤ 6 ∧
    (normalRangesMsg ∈ suggest_optimization m ↔
      ¬(m.open_rate < 0.20 ∨ m.click_rate < 0.08 ∨ m.click_to_open_rate < 0.30 ∨
        (m.open_rate > 0.25 ∧ m.click_rate < 0.10) ∨ m.open_rate < 0.22 ∨
        (m.open_rate > 0.30 ∧ m.click_rate > 0.12))) ∧
    (normalRangesMsg ∈ suggest_optimization m →
      suggest_optimization m = [normalRangesMsg]) := by
  rw [suggest_optimization_eq]
  by_cases h : matchingMessages m = []
  · rw [if_pos h]
    refine ⟨by simp, by simp, ?_, fun _ => rfl⟩
    have hnone := (matchingMessages_eq_nil_iff m).mp h
    simp [hnone]
  · rw [if_neg h]
    refine ⟨h, matchingMessages_length_le m, ?_, ?_⟩
    · have h1 := normalRanges_not_mem_matching m
      have h2 : ¬¬(m.open_rate < 0.20 ∨ m.click_rate < 0.08 ∨
          m.click_to_open_rate < 0.30 ∨
          (m.open_rate > 0.25 ∧ m.click_rate < 0.10) ∨ m.open_rate < 0.22 ∨
          (m.open_rate > 0.30 ∧ m.click_rate > 0.12)) :=
        fun hn => h ((matchingMessages_eq_nil_iff m).mpr hn)
      exact ⟨fun hc => absurd hc h1, fun hc => absurd hc h2⟩
    · exact fun hc => absurd hc (normalRanges_not_mem_matching m)

/-- Witness for C10: with every threshold satisfied away from its firing
range, the output is exactly the default message. -/
theorem suggest_optimization_invariants_witness :
    suggest_optimization ⟨0.23, 0.11, 0.5⟩ = [normalRangesMsg] :=
  (suggest_optimization_invariants ⟨0.23, 0.11, 0.5⟩).2.2.2
    ((suggest_optimization_invariants ⟨0.23, 0.11, 0.5⟩).2.2.1.mpr (by norm_num))

/-- C6 helper predicate (from the spec's words): a comparison entry is sound
when its difference, difference_percent and status agree with its actual and
benchmark fields. -/
def benchmarkEntryOk (e : ComparisonEntry) : Prop :=
  e.difference = e.actual - e.benchmark ∧
  e.difference_percent = e.difference / e.benchmark * 100 ∧
  (e.status = "above" ↔ e.benchmark < e.actual) ∧
  (e.status = "below" ↔ e.actual < e.benchmark) ∧
  (e.status = "at" ↔ e.actual = e.benchmark)

theorem status_above_iff (a b : ℚ) :
    ((if a - b > 0 then "above" else if a - b < 0 then "below" else "at") = "above")
      ↔ b < a := by
  split_ifs with h1 h2
  · simp only [true_iff]
    linarith
  · simp only [show ("below" : String) ≠ "above" by decide, false_iff]
    intro hba
    linarith
  · simp only [show ("at" : String) ≠ "above" by decide, false_iff]
    intro hba
    exact h1 (by linarith)

theorem status_below_iff (a b : ℚ) :
    ((if a - b > 0 then "above" else if a - b < 0 then "below" else "at") = "below")
      ↔ a < b := by
  split_ifs with h1 h2
  · simp only [show ("above" : String) ≠ "below" by decide, false_iff]
    intro hab
    linarith
  · simp only [true_iff]
    linarith
  · simp only [show ("at" : String) ≠ "below" by decide, false_iff]
    intro hab
    exact h2 (by linarith)

theorem status_at_iff (a b : ℚ) :
    ((if a - b > 0 then "above" else if a - b < 0 then "below" else "at") = "at")
      ↔ a = b := by
  split_ifs with h1 h2
  · simp only [show ("above" : String) ≠ "at" by decide, false_iff]
    intro hab
    rw [hab] at h1
    linarith
  · simp only [show ("below" : String) ≠ "at" by decide, false_iff]
    intro hab
    rw [hab] at h2
    linarith
  · push_neg at h1 h2
    simp only [true_iff]
    linarith

theorem compareMetric_ok (a b : ℚ) (hb : 0 < b) : benchmarkEntryOk (compareMetric a b) := by
  have hdp : (compareMetric a b).difference_percent = (a - b) / b * 100 := by
    show (if b > 0 then (a - b) / b * 100 else 0) = (a - b) / b * 100
    rw [if_pos hb]
  refine ⟨rfl, ?_, ?_, ?_, ?_⟩
  · rw [hdp]
    rfl
  · exact status_above_iff a b
  · exact status_below_iff a b
  · exact status_at_iff a b

/-- C6: compare_to_benchmarks compares open_rate to 0.21, click_rate to 0.10
and unsubscribe_rate to 0.005, in that order, and every entry reports
difference = actual - benchmark, difference_percent = difference / benchmark
* 100, and status "above" iff actual > benchmark, "below" iff actual <
benchmark, "at" iff actual equals the benchmark exactly. -/
theorem compare_to_benchmarks_spec (m : BenchMetrics) :
    compare_to_benchmarks m =
      [("open_rate", compareMetric m.open_rate 0.21),
       ("click_rate", compareMetric m.click_rate 0.10),
       ("unsubscribe_rate", compareMetric m.unsubscribe_rate 0.005)] ∧
    benchmarkEntryOk (compareMetric m.open_rate 0.21) ∧
    benchmarkEntryOk (compareMetric m.click_rate 0.10) ∧
    benchmarkEntryOk (compareMetric m.unsubscribe_rate 0.005) :=
  ⟨rfl, compareMetric_ok _ _ (by norm_num), compareMetric_ok _ _ (by norm_num),
    compareMetric_ok _ _ (by norm_num)⟩

theorem mem_personaKeys {p : String} : ∀ {l : List String}, p ∈ personaKeys l ↔ p ∈ l := by
  intro l
  induction l using personaKeys.induct with
  | case1 => simp [personaKeys]
  | case2 a l ih =>
    rw [personaKeys]
    by_cases hpa : p = a
    · subst hpa
      simp
    · simp only [List.mem_cons, hpa, false_or, ih, List.mem_filter,
        decide_eq_true_eq, ne_eq]
      tauto

theorem lookup_filterMap_keyed (g : String → TrendEntry) (P : String → Prop)
    [DecidablePred P] (ks : List String) (p : String) :
    (ks.filterMap (fun q => if P q then none else some (q, g q))).lookup p =
      if p ∈ ks ∧ ¬P p then some (g p) else none := by
  induction ks with
  | nil => simp
  | cons a ks ih =>
    rw [List.filterMap_cons]
    by_cases hPa : P a
    · rw [if_pos hPa, ih]
      by_cases hpa : p = a
      · subst hpa
        simp [hPa]
      · simp [hpa]
    · rw [if_neg hPa]
      by_cases hpa : p = a
      · subst hpa
        simp [List.lookup, hPa]
      · have : (p == a) = false := beq_eq_false_iff_ne.mpr hpa
        simp only [List.lookup, this, ih, List.mem_cons, hpa, false_or]

theorem mem_keys_of_two_le {h : List Record} {p : String}
    (hgrp : 2 ≤ (h.filter (fun r => r.persona = p)).length) :
    p ∈ personaKeys (h.map (fun r => r.persona)) := by
  rw [mem_personaKeys]
  have hne : h.filter (fun r => r.persona = p) ≠ [] := by
    intro hnil
    rw [hnil] at hgrp
    simp at hgrp
  obtain ⟨r, hr⟩ := List.exists_mem_of_ne_nil _ hne
  obtain ⟨hrh, hrp⟩ := List.mem_filter.mp hr
  exact List.mem_map.mpr ⟨r, hrh, of_decide_eq_true hrp⟩

theorem trendsOf_lookup (h : List Record) (p : String) :
    (trendsOf h).lookup p =
      if p ∈ personaKeys (h.map (fun r => r.persona)) ∧
          ¬(h.filter (fun r => r.persona = p)).length < 2
      then some (mkTrend (h.filter (fun r => r.persona = p)))
      else none :=
  lookup_filterMap_keyed (fun q => mkTrend (h.filter (fun r => r.persona = q)))
    (fun q => (h.filter (fun r => r.persona = q)).length < 2) _ p

/-- C3: on a history with at least 2 records, identify_trends succeeds; for a
persona whose group (the persona-filtered history, in caller order) has size
N ≥ 2, the trends map holds an entry whose averages are the arithmetic means
over all N records, whose trend strings are "improving" exactly when the
mean over records[mid..N] (mid = N / 2) strictly exceeds the mean over
records[0..mid] and "declining" otherwise, and whose change fields are the
second-half mean minus the first-half mean; personas with fewer than 2
records are silently absent from the trends map. -/
theorem identify_trends_per_persona (h : List Record) (p : String)
    (hlen : 2 ≤ h.length) :
    identify_trends h = TrendResult.success (trendsOf h).length (trendsOf h) ∧
    (2 ≤ (h.filter (fun r => r.persona = p)).length →
      (trendsOf h).lookup p =
        some (let records := h.filter (fun r => r.persona = p)
              let mid := records.length / 2
              let firstOpen := ((records.take mid).map (fun r => r.open_rate)).sum / mid
              let secondOpen :=
                ((records.drop mid).map (fun r => r.open_rate)).sum / (records.length - mid)
              let firstClick := ((records.take mid).map (fun r => r.click_rate)).sum / mid
              let secondClick :=
                ((records.drop mid).map (fun r => r.click_rate)).sum / (records.length - mid)
              { campaigns_analyzed := records.length
                avg_open_rate := ((records.map (fun r => r.open_rate)).sum) / records.length
                avg_click_rate := ((records.map (fun r => r.click_rate)).sum) / records.length
                open_rate_trend := if secondOpen > firstOpen then "improving" else "declining"
                click_rate_trend := if secondClick > firstClick then "improving" else "declining"
                open_rate_change := secondOpen - firstOpen
                click_rate_change := secondClick - firstClick })) ∧
    ((h.filter (fun r => r.persona = p)).length < 2 → (trendsOf h).lookup p = none) := by
  refine ⟨?_, ?_, ?_⟩
  · unfold identify_trends
    rw [if_neg (by omega)]
  · intro hgrp
    rw [trendsOf_lookup, if_pos ⟨mem_keys_of_two_le hgrp, by omega⟩]
    rfl
  · intro hgrp
    rw [trendsOf_lookup, if_neg (fun hc => hc.2 hgrp)]

/-- Witness for C3 on a two-record single-persona history: both the entry
shape and the exclusion of an unseen persona. -/
theorem identify_trends_per_persona_witness :
    (trendsOf [⟨"founders", 1/10, 1/20⟩, ⟨"founders", 3/10, 1/20⟩]).lookup "founders" =
      some { campaigns_analyzed := 2
             avg_open_rate := 1/5
             avg_click_rate := 1/20
             open_rate_trend := "improving"
             click_rate_trend := "declining"
             open_rate_change := 1/5
             click_rate_change := 0 } ∧
    (trendsOf [⟨"founders", 1/10, 1/20⟩, ⟨"founders", 3/10, 1/20⟩]).lookup "creatives" = none := by
  constructor
  · have hl := (identify_trends_per_persona
      [⟨"founders", 1/10, 1/20⟩, ⟨"founders", 3/10, 1/20⟩] "founders" (by decide)).2.1
      (by decide)
    rw [hl]
    norm_num [List.filter, List.take, List.drop, List.map, List.sum]
  · exact (identify_trends_per_persona
      [⟨"founders", 1/10, 1/20⟩, ⟨"founders", 3/10, 1/20⟩] "creatives" (by decide)).2.2
      (by decide)

/-- C9: on a history with at least 2 records in which no persona reaches 2
records, identify_trends returns success with personas_analyzed = 0 and an
empty trends map, not the insufficient_data sentinel. -/
theorem identify_trends_success_empty (h : List Record)
    (hlen : 2 ≤ h.length)
    (hall : ∀ p : String, (h.filter (fun r => r.persona = p)).length < 2) :
    identify_trends h = TrendResult.success 0 [] := by
  have hts : trendsOf h = [] := by
    unfold trendsOf
    rw [List.filterMap_eq_nil_iff]
    intro q _
    simp only [if_pos (hall q)]
  unfold identify_trends
  rw [if_neg (by omega), hts]
  rfl

/-- Witness for C9: two records with two distinct personas. -/
theorem identify_trends_success_empty_witness :
    identify_trends [⟨"founders", 1, 1⟩, ⟨"creatives", 1, 1⟩] = TrendResult.success 0 [] := by
  refine identify_trends_success_empty _ (by decide) ?_
  intro p
  by_cases h1 : "founders" = p <;> by_cases h2 : "creatives" = p
  · exact absurd (h2.trans h1.symm) (by decide)
  · simp [List.filter, h1, h2]
  · simp [List.filter, h1, h2]
  · simp [List.filter, h1, h2]

end PerformanceAnalyzer
